import Mathlib

/-!
Verification of the OpenPiRouter dashboard core (modern_dashboard.py).

The Python/JavaScript source is shallowly embedded: external effects
(subprocess calls, file reads, database queries, the wall clock) are
parameters of each embedded function, numbers are modelled as `Int`/`ℚ`,
Python exceptions as `Except`/`Option`, and the module-level mutable state
(the cache dict, the speed-history arrays) as explicit state passing.
-/

namespace OpenPiRouter

/-! ### Python / JavaScript string and number primitives -/

/-- Does the list start with the given pattern?  (`str.startswith`, on chars.) -/
def startsWithList : List Char → List Char → Bool
  | _, [] => true
  | [], _ :: _ => false
  | a :: as, b :: bs => a == b && startsWithList as bs

/-- Does the pattern occur as a contiguous run inside the list?  (Python `in`.) -/
def hasSubList : List Char → List Char → Bool
  | [], pat => pat.isEmpty
  | c :: rest, pat => startsWithList (c :: rest) pat || hasSubList rest pat

/-- Python `needle in hay` on strings. -/
def pyIn (needle hay : String) : Bool := hasSubList hay.toList needle.toList

/-- Python `s.startswith(p)`. -/
def pyStartsWith (s p : String) : Bool := startsWithList s.toList p.toList

/-- Python `s.strip()` (ASCII whitespace; the unicode extras never occur here). -/
def pyStrip (s : String) : String :=
  ⟨((s.toList.dropWhile Char.isWhitespace).reverse.dropWhile Char.isWhitespace).reverse⟩

/-- Python `s.strip(c)` for a single strip character. -/
def pyStripChar (c : Char) (s : String) : String :=
  ⟨((s.toList.dropWhile (· == c)).reverse.dropWhile (· == c)).reverse⟩

/-- Python `s.rstrip(c)` for a single strip character. -/
def pyRstripChar (c : Char) (s : String) : String :=
  ⟨(s.toList.reverse.dropWhile (· == c)).reverse⟩

/-- Split a character list on a separator character (Python `s.split(sep)`). -/
def splitOnChar (sep : Char) : List Char → List (List Char)
  | [] => [[]]
  | c :: rest =>
    let r := splitOnChar sep rest
    if c == sep then [] :: r
    else
      match r with
      | [] => [[c]]
      | h :: t => (c :: h) :: t

/-- Python `s.split(sep)` for a one-character separator, on strings. -/
def pySplitChar (sep : Char) (s : String) : List String :=
  (splitOnChar sep s.toList).map (fun l => (⟨l⟩ : String))

/-- Python `s.splitlines()` (newline-separated; the sources only ever produce
    LF-terminated output).  An empty string yields no lines, and a single
    trailing newline yields no trailing empty line, as in Python. -/
def splitLines (s : String) : List String :=
  if s = "" then []
  else
    let l := pySplitChar (Char.ofNat 10) s
    if l.getLast? = some "" then l.dropLast else l

/-- Python `s.split()` with no arguments: split on whitespace runs,
    discarding empty fields. -/
def pySplitWs (s : String) : List String :=
  ((s.toList.splitOnP Char.isWhitespace).map (fun l => (⟨l⟩ : String))).filter (fun t => t ≠ "")

/-- The run of characters after the last occurrence of `sep`, if `sep` occurs
    (`s.split(sep)[-1]` returns this run when the separator is present). -/
def afterLastOcc (sep : List Char) : List Char → Option (List Char)
  | [] => if sep.isEmpty then some [] else none
  | c :: rest =>
    match afterLastOcc sep rest with
    | some r => some r
    | none =>
      if startsWithList (c :: rest) sep then some ((c :: rest).drop sep.length)
      else none

/-- Python `s.split(sep)[-1]`: the text after the last occurrence of `sep`,
    or the whole string if `sep` does not occur. -/
def pySplitLast (sep : String) (s : String) : String :=
  ⟨(afterLastOcc sep.toList s.toList).getD s.toList⟩

/-- Python `s.split(sep, 1)[1]`: everything after the first occurrence of the
    one-character separator.  Callers in the source guard the occurrence with
    `startswith`, so the missing-separator case (an IndexError in Python) is
    mapped to the empty string. -/
def pySplit1Tail (sep : Char) (s : String) : String :=
  match splitOnChar sep s.toList with
  | [] => ""
  | [_] => ""
  | _ :: rest => ⟨List.intercalate [sep] rest⟩

/-- Numeric value of a digit run; `none` when empty or a non-digit appears. -/
def digitsVal : List Char → Option Nat
  | [] => none
  | l =>
    l.foldl
      (fun acc c =>
        match acc with
        | none => none
        | some n => if c.isDigit then some (n * 10 + (c.toNat - 48)) else none)
      (some 0)

/-- Python `int(s)`: optional surrounding whitespace, optional sign, digits;
    anything else raises `ValueError`, modelled as `none`. -/
def pyInt (s : String) : Option Int :=
  match (pyStrip s).toList with
  | '-' :: rest => (digitsVal rest).map (fun n => -(n : Int))
  | '+' :: rest => (digitsVal rest).map (fun n => (n : Int))
  | t => (digitsVal t).map (fun n => (n : Int))

/-- Digit-run value defaulting to 0 on the empty run. -/
def digitsValD (l : List Char) : ℚ := (((digitsVal l).getD 0 : Nat) : ℚ)

/-- Python `float(s)` restricted to the shapes `[\d.]+` can produce
    (`digits`, `digits.`, `.digits`, `digits.digits`); a bare dot or a second
    dot raises `ValueError`, modelled as `none`. -/
def pyFloatDigits (l : List Char) : Option ℚ :=
  let ip := l.takeWhile Char.isDigit
  let rest := l.drop ip.length
  match rest with
  | [] => if ip.isEmpty then none else some (digitsValD ip)
  | '.' :: frac =>
    if frac.all Char.isDigit ∧ ¬(ip.isEmpty ∧ frac.isEmpty) then
      some (digitsValD ip + digitsValD frac / (10 : ℚ) ^ frac.length)
    else none
  | _ => none

/-- Python `round(x)`: round half to even, returning an integer. -/
def pyRound (x : ℚ) : ℤ :=
  let n := ⌊x + 1 / 2⌋
  if x + 1 / 2 = (n : ℚ) ∧ n % 2 = 1 then n - 1 else n

/-- Python `round(x, 1)`. -/
def pyRound1 (x : ℚ) : ℚ := (pyRound (x * 10) : ℚ) / 10

/-- JavaScript `Math.round(x)` (round half toward positive infinity). -/
def jsRound (x : ℚ) : ℤ := ⌊x + 1 / 2⌋

/-- Python `'*' * n`. -/
def stars (n : Nat) : String := ⟨List.replicate n '*'⟩

/-! ### Subprocess calls and the `sh` wrapper (modern_dashboard.py lines 2440-2448)

An external command is modelled by what the outside world would have it do:
how long it runs, whether launching it raises (tool missing), and the
`returncode`/`stdout` it yields when it finishes in time. -/

/-- Exceptions that escape `subprocess.run`. -/
inductive PyExn
  | timeoutExpired
  | other
deriving DecidableEq, Repr

/-- The behaviour of one external command in the current environment. -/
structure Cmd where
  duration : ℚ
  raises : Bool
  returncode : Int
  stdout : String
deriving DecidableEq, Repr

/-- Result of a completed `subprocess.run`. -/
structure RunResult where
  returncode : Int
  stdout : String
deriving DecidableEq, Repr

/-- Model of `subprocess.run(cmd, capture_output=True, timeout=t)`: raises
    `TimeoutExpired` when the command outlives the timeout, re-raises launch
    failures, and otherwise returns the completed process. -/
def runCmd (t : ℚ) (c : Cmd) : Except PyExn RunResult :=
  if c.raises then .error .other
  else if t < c.duration then .error .timeoutExpired
  else .ok ⟨c.returncode, c.stdout⟩

/-- The wrapper `sh(cmd, timeout)` (lines 2440-2448): runs the command, returning stripped
    stdout; `TimeoutExpired` and every other exception are caught and mapped
    to the empty string.  The `Except` result records what the caller could
    observe being raised: the theorems show it is always `.ok`. -/
def sh (cmd : Cmd) (t : ℚ) : Except PyExn String :=
  match runCmd t cmd with
  | .ok result => .ok (pyStrip result.stdout)
  | .error PyExn.timeoutExpired => .ok ""
  | .error PyExn.other => .ok ""

/-- The string `sh` hands its callers (default timeout 10). -/
def shFun (cmd : Cmd) : String :=
  match sh cmd 10 with
  | .ok s => s
  | .error _ => ""

/-! ### The caching system (lines 40-62)

`cache` is a module-level dict mapping a key string to `(result, timestamp)`;
`cached_function` wraps a probe so that a call first checks the dict and only
runs the probe on a miss or an expired entry.  The dict is modelled as a
function from keys to optional entries, threaded explicitly. -/

/-- Line 42: `cache_timeout = 5  # seconds`. -/
def cache_timeout : ℚ := 5

/-- The module-level `cache` dict for values of type `V`. -/
def CacheDict (V : Type) : Type := String → Option (V × ℚ)

/-- The empty cache dict. -/
def emptyCache (V : Type) : CacheDict V := fun _ => none

/-- Line 59: `cache[key] = (result, now)`. -/
def cacheSet {V : Type} (c : CacheDict V) (key : String) (e : V × ℚ) : CacheDict V :=
  fun k => if k = key then some e else c k

/-- One complete (uninterleaved) call of the `cached_function` wrapper
    (lines 47-60): look the key up; a hit younger than `cache_timeout` is
    returned as-is, otherwise the wrapped function runs and its result is
    stored with the current time.  The boolean records whether the wrapped
    function was executed during this call. -/
def cachedCall {V : Type} (c : CacheDict V) (key : String) (now : ℚ)
    (compute : Unit → V) : V × CacheDict V × Bool :=
  match c key with
  | some (v, ts) =>
    if now - ts < cache_timeout then (v, c, false)
    else
      let r := compute ()
      (r, cacheSet c key (r, now), true)
  | none =>
    let r := compute ()
    (r, cacheSet c key (r, now), true)

/-! ### Interleaved executions of the wrapper for one key

The wrapper body has two separately observable regions: the dict lookup with
the freshness test (lines 52-55), and — after the wrapped function returns —
the dict store (line 59).  Between them the wrapped function runs with no
lock held, so concurrent callers interleave at this granularity.  A caller is
a small state machine; a schedule chooses which caller steps next and at what
clock reading. -/

/-- Where one concurrent caller of the wrapper stands. -/
inductive CallerPhase
  | start
  | willCompute
  | finished (v : Nat)
deriving DecidableEq, Repr

/-- Shared cache entry for the one key under consideration, the number of
    executions of the wrapped function so far, and each caller's phase. -/
structure SFState where
  entry : Option (Nat × ℚ)
  computeCount : Nat
  callers : List CallerPhase
deriving DecidableEq, Repr

/-- The freshness test of lines 52-54: is there a hit younger than the ttl? -/
def sfFresh (entry : Option (Nat × ℚ)) (now : ℚ) : Bool :=
  match entry with
  | some (_, ts) => now - ts < cache_timeout
  | none => false

/-- Value of the current entry (only read under `sfFresh`). -/
def sfEntryVal (entry : Option (Nat × ℚ)) : Nat :=
  match entry with
  | some (v, _) => v
  | none => 0

/-- One atomic step of caller `i` at clock reading `now`; the wrapped
    function deterministically returns `c`.  A caller at `start` performs the
    lookup/freshness test; a caller at `willCompute` executes the wrapped
    function and stores its result. -/
def sfStep (c : Nat) (st : SFState) (i : Nat) (now : ℚ) : SFState :=
  match st.callers.get? i with
  | some CallerPhase.start =>
    if sfFresh st.entry now then
      { st with callers := st.callers.set i (CallerPhase.finished (sfEntryVal st.entry)) }
    else
      { st with callers := st.callers.set i CallerPhase.willCompute }
  | some CallerPhase.willCompute =>
    { st with
      entry := some (c, now)
      computeCount := st.computeCount + 1
      callers := st.callers.set i (CallerPhase.finished c) }
  | _ => st

/-- Run a schedule of `(caller, clock)` steps. -/
def sfRun (c : Nat) (st : SFState) : List (Nat × ℚ) → SFState
  | [] => st
  | (i, now) :: rest => sfRun c (sfStep c st i now) rest

/-- Is a caller still running? -/
def sfPendingPhase : CallerPhase → Bool
  | CallerPhase.finished _ => false
  | _ => true

/-- Number of callers that have not finished. -/
def sfPending (st : SFState) : Nat := st.callers.countP sfPendingPhase

/-! ### The speed display state machine (template script, lines 1475-1538)

`updateSpeedData` keeps the previous counter sample in `lastSpeedData`, a
per-direction history of the last `HISTORY_SIZE` per-pair Mbit/s values, and
writes the smoothed, rounded value into the two display elements.  Counter
values and the millisecond timestamp are integers; derived rates are exact
rationals (every number reached here is exactly representable as an IEEE
double, so the rational model agrees with the JavaScript floats). -/

/-- Line 1479: `HISTORY_SIZE = 3`. -/
def HISTORY_SIZE : Nat := 3

/-- One accepted `lastSpeedData` record. -/
structure SpeedSample where
  wan_rx : Int
  ap_tx : Int
  timestamp : Int
deriving DecidableEq, Repr

/-- State held by `lastSpeedData`, `speedHistory` and the two display elements.  A display
    of `none` is the page's initial text, before any update has written it. -/
structure SpeedUIState where
  lastSpeedData : Option SpeedSample
  histDownload : List ℚ
  histUpload : List ℚ
  dispDownload : Option ℚ
  dispUpload : Option ℚ
deriving DecidableEq, Repr

/-- The page state before the first speed message. -/
def initialSpeedUI : SpeedUIState := ⟨none, [], [], none, none⟩

/-- The handler `updateSpeedData(data)` for a successful sample (lines 1481-1538): with a
    previous sample, accept the pair only when `1 < dt < 10` seconds and both
    deltas are non-negative; convert to Mbit/s dividing by `dt * 1024 * 1024`,
    push into both histories, drop the oldest entry beyond `HISTORY_SIZE`,
    display the window means rounded to one decimal with values below 0.1
    flattened to 0; a rejected pair changes no history and no display.  The
    incoming sample always becomes the new `lastSpeedData`; the very first
    sample displays zero. -/
def updateSpeedData (st : SpeedUIState) (wanRx apTx currentTime : Int) : SpeedUIState :=
  match st.lastSpeedData with
  | some prev =>
    let timeDiff : ℚ := ((currentTime - prev.timestamp : Int) : ℚ) / 1000
    let wanDiff : Int := wanRx - prev.wan_rx
    let apDiff : Int := apTx - prev.ap_tx
    if 1 < timeDiff ∧ timeDiff < 10 ∧ 0 ≤ wanDiff ∧ 0 ≤ apDiff then
      let downloadMbps : ℚ := ((wanDiff * 8 : Int) : ℚ) / (timeDiff * 1024 * 1024)
      let uploadMbps : ℚ := ((apDiff * 8 : Int) : ℚ) / (timeDiff * 1024 * 1024)
      let pushedD := st.histDownload ++ [downloadMbps]
      let pushedU := st.histUpload ++ [uploadMbps]
      let histD := if HISTORY_SIZE < pushedD.length then pushedD.tail else pushedD
      let histU := if HISTORY_SIZE < pushedD.length then pushedU.tail else pushedU
      let avgDownload := histD.sum / (histD.length : ℚ)
      let avgUpload := histU.sum / (histU.length : ℚ)
      let displayDownload : ℚ :=
        if avgDownload < 1 / 10 then 0 else (jsRound (avgDownload * 10) : ℚ) / 10
      let displayUpload : ℚ :=
        if avgUpload < 1 / 10 then 0 else (jsRound (avgUpload * 10) : ℚ) / 10
      { lastSpeedData := some ⟨wanRx, apTx, currentTime⟩
        histDownload := histD
        histUpload := histU
        dispDownload := some displayDownload
        dispUpload := some displayUpload }
    else
      { st with lastSpeedData := some ⟨wanRx, apTx, currentTime⟩ }
  | none =>
    { st with
      lastSpeedData := some ⟨wanRx, apTx, currentTime⟩
      dispDownload := some 0
      dispUpload := some 0 }

/-! Specification-side rate definitions (spec.md section 4.3), for the
refinement statements: the trailing window of per-pair values and the
displayed mean.  The per-pair conversion follows the code's actual divisor;
the original `dt * 1e6` reading is refuted separately. -/

/-- Per-pair Mbit/s value as the code computes it. -/
def pairMbps (deltaBytes : Int) (dt : ℚ) : ℚ := ((deltaBytes * 8 : Int) : ℚ) / (dt * 1024 * 1024)

/-- Per-pair Mbit/s value as spec.md section 8 words it (`deltaBytes*8 / (dt*1e6)`). -/
def pairMbpsSpec (deltaBytes : Int) (dt : ℚ) : ℚ := ((deltaBytes * 8 : Int) : ℚ) / (dt * 1000000)

/-- Trailing window of size `HISTORY_SIZE`: the last three values after the
    new one is appended. -/
def trailingWindow (old : List ℚ) (v : ℚ) : List ℚ :=
  let l := old ++ [v]
  l.drop (l.length - HISTORY_SIZE)

/-- Displayed value for a window: arithmetic mean, rounded to one decimal,
    flattened to 0 under 0.1. -/
def displayOfWindow (l : List ℚ) : ℚ :=
  let avg := l.sum / (l.length : ℚ)
  if avg < 1 / 10 then 0 else (jsRound (avg * 10) : ℚ) / 10

/-! ### WiFi link probes (lines 111-163 and lines 3079-3115) -/

/-- The two nmcli invocations a WiFi probe performs. -/
structure WifiEnv where
  conShowActive : Cmd
  wifiList : Cmd
deriving DecidableEq, Repr

/-- Result dict of `get_current_wifi_data`; absent dict keys are `none`.
    `errored` marks the `{'connected': False, 'error': ...}` shape. -/
structure WifiData where
  connected : Bool
  ssid : Option String
  signal : Option String
  errored : Bool
deriving DecidableEq, Repr

/-- Timeout of the association check in `get_current_wifi_data` (line 116). -/
def wifiAssocTimeout : ℚ := 5

/-- Timeout of the signal-strength read in `get_current_wifi_data` (line 143). -/
def wifiSignalTimeout : ℚ := 3

/-- The scan loop of lines 124-134 / 3090-3097: the first line containing
    `wlan0` that splits into at least three `:`-fields whose device field is
    `wlan0` and whose state field mentions `activated` or `connected` yields
    the connection name; other lines are skipped. -/
def findWlan0Conn : List String → Option String
  | [] => none
  | line :: rest =>
    if pyIn "wlan0" line then
      let parts := pySplitChar ':' line
      if 3 ≤ parts.length ∧ parts.getD 1 "" = "wlan0" ∧
          (pyIn "activated" (parts.getD 2 "") ∨ pyIn "connected" (parts.getD 2 "")) then
        some (parts.getD 0 "")
      else findWlan0Conn rest
    else findWlan0Conn rest

/-- The signal loop of lines 146-151 / 3103-3108: the first line containing
    the connection name that splits into at least two `:`-fields yields its
    stripped second field. -/
def findSignal (connectionName : String) : List String → Option String
  | [] => none
  | line :: rest =>
    if pyIn connectionName line then
      let parts := pySplitChar ':' line
      if 2 ≤ parts.length then some (pyStrip (parts.getD 1 ""))
      else findSignal connectionName rest
    else findSignal connectionName rest

/-- The probe `get_current_wifi_data()` (lines 111-163): association check with a
    5-second timeout; if associated, a best-effort signal read with a
    3-second timeout whose `TimeoutExpired` alone is caught and replaced by
    the fallback signal "0"; any other exception reaches the outer handler,
    which reports `connected=False` with an error entry. -/
def get_current_wifi_data (env : WifiEnv) : WifiData :=
  match runCmd wifiAssocTimeout env.conShowActive with
  | .error _ => ⟨false, none, none, true⟩
  | .ok result =>
    if result.returncode ≠ 0 then ⟨false, none, none, false⟩
    else
      match findWlan0Conn (splitLines result.stdout) with
      | none => ⟨false, none, none, false⟩
      | some connection_name =>
        match runCmd wifiSignalTimeout env.wifiList with
        | .error PyExn.timeoutExpired => ⟨true, some connection_name, some "0", false⟩
        | .error PyExn.other => ⟨false, none, none, true⟩
        | .ok signal_result =>
          let signal :=
            if signal_result.returncode = 0 then
              (findSignal connection_name (splitLines signal_result.stdout)).getD "0"
            else "0"
          ⟨true, some connection_name, some signal, false⟩

/-- Response of the `/api/get_current_wifi` route. -/
structure WifiApiResult where
  success : Bool
  connected : Option Bool
  ssid : Option String
  signal : Option String
deriving DecidableEq, Repr

/-- The route body `api_get_current_wifi()` (lines 3079-3115): like the push-path probe but
    with a 15-second association timeout, a 10-second signal timeout, and no
    inner handler — a signal-read timeout fails the whole request. -/
def api_get_current_wifi (env : WifiEnv) : WifiApiResult :=
  match runCmd 15 env.conShowActive with
  | .error _ => ⟨false, none, none, none⟩
  | .ok result =>
    if result.returncode ≠ 0 then ⟨false, none, none, none⟩
    else
      match findWlan0Conn (splitLines result.stdout) with
      | none => ⟨true, some false, none, none⟩
      | some name =>
        match runCmd 10 env.wifiList with
        | .error _ => ⟨false, none, none, none⟩
        | .ok signal_result =>
          let signal :=
            if signal_result.returncode = 0 then
              (findSignal name (splitLines signal_result.stdout)).getD "0"
            else "0"
          ⟨true, some true, some name, some signal⟩

/-! ### Interface counter probe (lines 165-212) -/

/-- Result of `get_internet_speed_data`. -/
inductive SpeedResult
  | ok (wan_rx ap_tx timestamp : Int)
  | failed
deriving DecidableEq, Repr

/-- One line of `/proc/net/dev` (lines 183-202): at least ten whitespace
    fields, integer rx (field 1) and tx (field 9); `wlan0`/`eth0` counters sum
    into the WAN group, `wlan1`/`br0` into the AP group; malformed lines are
    skipped by the inner `except`.  The accumulator is
    `(wan_rx, wan_tx, ap_rx, ap_tx)`. -/
def speedLine (acc : Int × Int × Int × Int) (line : String) : Int × Int × Int × Int :=
  let parts := pySplitWs line
  if 10 ≤ parts.length then
    match pyInt (parts.getD 1 ""), pyInt (parts.getD 9 "") with
    | some rx_bytes, some tx_bytes =>
      let iface := pyRstripChar ':' (parts.getD 0 "")
      if iface = "wlan0" ∨ iface = "eth0" then
        (acc.1 + rx_bytes, acc.2.1 + tx_bytes, acc.2.2.1, acc.2.2.2)
      else if iface = "wlan1" ∨ iface = "br0" then
        (acc.1, acc.2.1, acc.2.2.1 + rx_bytes, acc.2.2.2 + tx_bytes)
      else acc
    | _, _ => acc
  else acc

/-- The probe `get_internet_speed_data()` (lines 165-212): read `/proc/net/dev` with a
    5-second timeout, sum the groups, and report the WAN rx and AP tx totals
    with a millisecond timestamp; any failure yields the unsuccessful dict. -/
def get_internet_speed_data (catNetDev : Cmd) (now_ms : Int) : SpeedResult :=
  match runCmd 5 catNetDev with
  | .error _ => .failed
  | .ok result =>
    if result.returncode ≠ 0 then .failed
    else
      let acc := (splitLines result.stdout).foldl speedLine (0, 0, 0, 0)
      .ok acc.1 acc.2.2.2 now_ms

/-! ### System status probe (lines 2450-2508) -/

/-- External calls `get_system_status` performs. -/
structure StatusEnv where
  uptimeCmd : Cmd
  conShowActive : Cmd
  devStatus : Cmd
  ping : Cmd
  hostapdActive : Cmd
  piholeActive : Cmd
deriving DecidableEq, Repr

/-- The status dict. -/
structure SystemStatus where
  wifi : Bool
  internet : Bool
  ap : Bool
  pihole : Bool
  uptime : String
deriving DecidableEq, Repr

/-- Lines 467-470 of the first wifi check: any line containing `wlan0`
    together with `activated` or `connected`. -/
def statusWifiLine1 : List String → Bool
  | [] => false
  | l :: ls => (pyIn "wlan0" l && (pyIn "activated" l || pyIn "connected" l)) || statusWifiLine1 ls

/-- The fallback device check (lines 2477-2480): a line starting with
    `wlan0:` containing `connected` or `activated`. -/
def statusWifiLine2 : List String → Bool
  | [] => false
  | l :: ls =>
    (pyStartsWith l "wlan0:" && (pyIn "connected" l || pyIn "activated" l)) || statusWifiLine2 ls

/-- The wifi block of lines 2462-2482: active-connection check (timeout 15),
    then the device-status fallback (timeout 10); any exception leaves the
    flag false. -/
def statusWifi (conShow devStatus : Cmd) : Bool :=
  match runCmd 15 conShow with
  | .error _ => false
  | .ok r1 =>
    let wifi1 := if r1.returncode = 0 then statusWifiLine1 (splitLines r1.stdout) else false
    if wifi1 then true
    else
      match runCmd 10 devStatus with
      | .error _ => false
      | .ok r2 =>
        if r2.returncode = 0 then statusWifiLine2 (splitLines r2.stdout) else false

/-- The `get_system_status()` body (lines 2451-2508, the undecorated
    `__wrapped__` function): every block catches its own failures, leaving
    the documented default in place. -/
def get_system_status_uncached (env : StatusEnv) : SystemStatus :=
  { wifi := statusWifi env.conShowActive env.devStatus
    internet :=
      match runCmd 5 env.ping with
      | .ok r => r.returncode = 0
      | .error _ => false
    ap :=
      match runCmd 5 env.hostapdActive with
      | .ok r => pyStrip r.stdout = "active"
      | .error _ => false
    pihole :=
      match runCmd 5 env.piholeActive with
      | .ok r => pyStrip r.stdout = "active"
      | .error _ => false
    uptime := let u := shFun env.uptimeCmd; if u = "" then "Unbekannt" else u }

/-! ### System stats probe (lines 2510-2606) -/

/-- Outcome of the Pi-hole FTL database access: the file may be missing, any
    sqlite step may raise, or the `counters` query returns `(id, value)`
    rows. -/
inductive PiholeDb
  | missing
  | raises
  | rows (l : List (Int × Int))
deriving DecidableEq, Repr

/-- External state `get_system_stats` reads.  `cpu`/`memPercent`/`disk` are
    psutil calls (which may raise); `vcgencmd`/`stations` go through `sh`;
    disk sizes are byte counts `(total, used, free)`. -/
structure StatsEnv where
  cpu : Except PyExn ℚ
  memPercent : Except PyExn ℚ
  vcgencmd : Cmd
  disk : Except PyExn (Int × Int × Int)
  stations : Cmd
  pihole : PiholeDb
deriving Repr

/-- The stats dict. -/
structure SystemStats where
  cpu : ℤ
  memory : ℤ
  temperature : ℤ
  clients : ℕ
  disk_used : ℚ
  disk_free : ℚ
  disk_total : ℚ
  pihole_queries : Int
  pihole_blocked : Int
  pihole_blocked_percent : ℚ
deriving DecidableEq, Repr

/-- The dict of defaults built at lines 2513-2524. -/
def statsDefaults : SystemStats := ⟨0, 0, 0, 0, 0, 0, 0, 0, 0, 0⟩

/-- Line 2537, `re.search(r'temp=([\d.]+)', s)`: the capture of the first
    position where `temp=` is followed by a non-empty run of digits and
    dots. -/
def findTempMatch : List Char → Option (List Char)
  | [] => none
  | c :: rest =>
    if startsWithList (c :: rest) "temp=".toList then
      let run := ((c :: rest).drop 5).takeWhile (fun d => d.isDigit || d == '.')
      if run.isEmpty then findTempMatch rest else some run
    else findTempMatch rest

/-- The temperature block of lines 2535-2541: regex capture over the
    `vcgencmd` output, parsed by `float`; a failed match or parse leaves the
    default. -/
def parseTemp (s : String) : Option ℚ :=
  (findTempMatch s.toList).bind pyFloatDigits

/-- Attached-station count (lines 2555-2560): lines of the `iw` dump that
    start with `Station `. -/
def countStations (dump : String) : Nat :=
  ((splitLines dump).filter (fun l => pyStartsWith l "Station ")).length

/-- The row loop of lines 2578-2582: id 0 sets the query total, id 1 the
    blocked total; later rows overwrite earlier ones. -/
def piholeCounters (rows : List (Int × Int)) : Int × Int :=
  rows.foldl
    (fun acc r =>
      if r.1 = 0 then (r.2, acc.2)
      else if r.1 = 1 then (acc.1, r.2)
      else acc)
    (0, 0)

/-- The `get_system_stats()` body (lines 2511-2606, the undecorated function):
    the outer handler returns whatever the dict holds when a psutil call
    raises; `vcgencmd`/station failures leave their defaults via `sh`; the
    Pi-hole block falls back to the zero triple when the database is missing
    or any access raises.  The function is total: no environment makes it
    raise to its caller. -/
def get_system_stats (env : StatsEnv) : SystemStats :=
  let s := statsDefaults
  match env.cpu with
  | .error _ => s
  | .ok cpuPercent =>
    let s := { s with cpu := pyRound cpuPercent }
    match env.memPercent with
    | .error _ => s
    | .ok memPercent =>
      let s := { s with memory := pyRound memPercent }
      let s :=
        match parseTemp (shFun env.vcgencmd) with
        | some t => { s with temperature := pyRound t }
        | none => s
      let s :=
        match env.disk with
        | .ok (total, used, free) =>
          { s with
            disk_total := pyRound1 ((total : ℚ) / 1073741824)
            disk_used := pyRound1 ((used : ℚ) / 1073741824)
            disk_free := pyRound1 ((free : ℚ) / 1073741824) }
        | .error _ => { s with disk_total := 0, disk_used := 0, disk_free := 0 }
      let s := { s with clients := countStations (shFun env.stations) }
      match env.pihole with
      | PiholeDb.missing =>
        { s with pihole_queries := 0, pihole_blocked := 0, pihole_blocked_percent := 0 }
      | PiholeDb.raises =>
        { s with pihole_queries := 0, pihole_blocked := 0, pihole_blocked_percent := 0 }
      | PiholeDb.rows l =>
        let totals := piholeCounters l
        { s with
          pihole_queries := totals.1
          pihole_blocked := totals.2
          pihole_blocked_percent :=
            if 0 < totals.1 then pyRound1 (((totals.2 : ℚ) / (totals.1 : ℚ)) * 100) else 0 }

/-! ### Access-point info (lines 2674-2770) -/

/-- Outcome of opening a file: missing on disk, unreadable (open raises), or
    its lines. -/
inductive FileOutcome
  | missing
  | raises
  | content (lines : List String)
deriving DecidableEq, Repr

/-- External state `get_ap_info` reads. -/
structure ApEnv where
  hostapd : FileOutcome
  leases : FileOutcome
  stations : Cmd
deriving DecidableEq, Repr

/-- One entry of the client list. -/
structure ApClient where
  mac : String
  ip : String
  hostname : String
  signal : String
  iface : String
deriving DecidableEq, Repr

/-- The AP info dict. -/
structure ApInfo where
  ssid : String
  band : String
  channel : String
  password : String
  ssid_visible : Bool
  clients : List ApClient
deriving DecidableEq, Repr

/-- The password scan of lines 2690-2696: the first stripped line starting
    with `wpa_passphrase=` yields the text after the first `=` with leading
    and trailing double quotes stripped. -/
def findPassphraseValue : List String → Option String
  | [] => none
  | line :: rest =>
    let l := pyStrip line
    if pyStartsWith l "wpa_passphrase=" then some (pyStripChar '"' (pySplit1Tail '=' l))
    else findPassphraseValue rest

/-- The password field (lines 2680 and 2685-2698): the passphrase length as
    stars; the default mask when the file is missing, unreadable, or has no
    passphrase line. -/
def apPassword (f : FileOutcome) : String :=
  match f with
  | FileOutcome.raises => "******"
  | FileOutcome.missing => "******"
  | FileOutcome.content lines =>
    match findPassphraseValue lines with
    | some v => stars v.length
    | none => "******"

/-- Running ssid/band/channel/visibility fields while scanning hostapd.conf
    (lines 2700-2714). -/
structure ApConfigAcc where
  ssid : String
  band : String
  channel : String
  visible : Bool
deriving DecidableEq, Repr

/-- One stripped hostapd.conf line (lines 2703-2714). -/
def apConfigLine (acc : ApConfigAcc) (line : String) : ApConfigAcc :=
  let l := pyStrip line
  if pyStartsWith l "ssid=" then { acc with ssid := pySplit1Tail '=' l }
  else if pyStartsWith l "hw_mode=" then
    { acc with band := if pySplit1Tail '=' l = "a" then "5G" else "2G" }
  else if pyStartsWith l "channel=" then { acc with channel := pySplit1Tail '=' l }
  else if pyStartsWith l "ignore_broadcast_ssid=" then
    { acc with visible := pySplit1Tail '=' l = "0" }
  else acc

/-- Insert or overwrite a DHCP dict entry, keeping dict insertion order as a
    Python dict does. -/
def dhcpUpsert (l : List (String × String × String)) (mac ip host : String) :
    List (String × String × String) :=
  if l.any (fun e => e.1 = mac) then
    l.map (fun e => if e.1 = mac then (mac, ip, host) else e)
  else l ++ [(mac, ip, host)]

/-- The lease scan of lines 2721-2732: lines with at least four whitespace
    fields populate the dict keyed by MAC; a `*` hostname becomes empty. -/
def dhcpClients (lines : List String) : List (String × String × String) :=
  lines.foldl
    (fun acc line =>
      let parts := pySplitWs line
      if 4 ≤ parts.length then
        dhcpUpsert acc (parts.getD 1 "") (parts.getD 2 "")
          (let h := parts.getD 3 ""; if h = "*" then "" else h)
      else acc)
    []

/-- Update the first client whose MAC matches case-insensitively
    (lines 2757-2761). -/
def setFirstSignal : List ApClient → String → String → List ApClient
  | [], _, _ => []
  | c :: cs, mac, sig =>
    if c.mac.toLower = mac.toLower then { c with signal := sig } :: cs
    else c :: setFirstSignal cs mac sig

/-- The station-dump enrichment loop of lines 2745-2763: `Station ` lines set
    the current MAC, `signal:` lines push the signal into the first matching
    client.  A `signal:` line before any `Station ` line makes the Python
    code call `.lower()` on `None`; that exception is caught by the block's
    own handler, leaving the list as enriched so far. -/
def enrichSignals (clients : List ApClient) (currentMac : Option String) :
    List String → List ApClient
  | [] => clients
  | line :: rest =>
    let l := pyStrip line
    if pyStartsWith l "Station " then
      enrichSignals clients (some ((pySplitWs l).getD 1 "")) rest
    else if pyStartsWith l "signal:" then
      match currentMac with
      | none => clients
      | some mac =>
        let sig := pyStrip (pySplitLast "signal:" l)
        enrichSignals (setFirstSignal clients mac sig) (some mac) rest
    else enrichSignals clients currentMac rest

/-- The `info` defaults of lines 2676-2683 with the password field applied. -/
def apInfoDefaults (password : String) : ApInfo :=
  ⟨"Unbekannt", "5G", "?", password, true, []⟩

/-- The probe `get_ap_info()` (lines 2674-2770): password mask, hostapd config fields,
    DHCP-lease client list enriched with station signal; every block degrades
    to its defaults on failure, and an unreadable hostapd.conf aborts to the
    outer handler after the password was set. -/
def get_ap_info (env : ApEnv) : ApInfo :=
  let password := apPassword env.hostapd
  match env.hostapd with
  | FileOutcome.raises => apInfoDefaults password
  | hostapdOutcome =>
    let cfg :=
      match hostapdOutcome with
      | FileOutcome.content lines => lines.foldl apConfigLine ⟨"Unbekannt", "5G", "?", true⟩
      | _ => ⟨"Unbekannt", "5G", "?", true⟩
    let dh :=
      match env.leases with
      | FileOutcome.content lines => dhcpClients lines
      | _ => []
    let clients0 : List ApClient := dh.map (fun e => ⟨e.1, e.2.1, e.2.2, "", "wlan1"⟩)
    let clients := enrichSignals clients0 none (splitLines (shFun env.stations))
    ⟨cfg.ssid, cfg.band, cfg.channel, password, cfg.visible, clients⟩

/-! ### Lease cleanup (lines 3490-3522) -/

/-- Result of `/api/cleanup_clients`: on success the removed count and, when
    the lease file existed, the lines written back; the error dict
    (`success: False`) when an exception was caught. -/
inductive CleanupResult
  | success (removed : Nat) (rewritten : Option (List String))
  | failure
deriving DecidableEq, Repr

/-- The whitespace fields of a stripped lease-file line
    (`line.strip().split()`, line 3504). -/
def leaseFields (line : String) : List String := pySplitWs (pyStrip line)

/-- The read loop of lines 3502-3511: lines with at least four whitespace
    fields keep their original text when the integer first field is in the
    future and count as removed otherwise; a non-integer first field raises
    `ValueError` (`none`), aborting the whole request. -/
def processLeases (currentTime : Int) : List String → Option (List String × Nat)
  | [] => some ([], 0)
  | line :: rest =>
    if 4 ≤ (leaseFields line).length then
      match pyInt ((leaseFields line).getD 0 "") with
      | none => none
      | some lease_time =>
        match processLeases currentTime rest with
        | none => none
        | some (keep, removed) =>
          if currentTime < lease_time then some (line :: keep, removed)
          else some (keep, removed + 1)
    else
      processLeases currentTime rest

/-- The route body `api_cleanup_clients()` (lines 3490-3522): a missing lease file reports
    success with zero removals and no rewrite; otherwise the surviving lines
    are written back and the removed count reported; any exception, including
    a malformed expiry field, yields the error response with the file left
    unwritten. -/
def api_cleanup_clients (leases : FileOutcome) (currentTime : Int) : CleanupResult :=
  match leases with
  | FileOutcome.raises => .failure
  | FileOutcome.missing => .success 0 none
  | FileOutcome.content lines =>
    match processLeases currentTime lines with
    | none => .failure
    | some (keep, removed) => .success removed (some keep)

/-! ### The push scheduler tick (lines 76-109) -/

/-- External state one tick of `background_update_task` samples. -/
structure TickEnv where
  status : StatusEnv
  stats : StatsEnv
  wifi : WifiEnv
  netDev : Cmd
  nowMs : Int
  ap : ApEnv
deriving Repr

/-- One socket broadcast. -/
inductive PushMessage
  | system_status (s : SystemStatus)
  | system_stats (s : SystemStats)
  | wifi_status (w : WifiData)
  | speed_data (r : SpeedResult)
  | client_list (clients : List ApClient) (count : Nat)
deriving DecidableEq, Repr

/-- The broadcasts of one tick (lines 87-102): all five samplers run against
    this tick's environment, bypassing the cache, and all five messages are
    emitted. -/
def background_update_tick (env : TickEnv) : List PushMessage :=
  let status_data := get_system_status_uncached env.status
  let stats_data := get_system_stats env.stats
  let wifi_data := get_current_wifi_data env.wifi
  let speed_data := get_internet_speed_data env.netDev env.nowMs
  let ap_info := get_ap_info env.ap
  [PushMessage.system_status status_data,
   PushMessage.system_stats stats_data,
   PushMessage.wifi_status wifi_data,
   PushMessage.speed_data speed_data,
   PushMessage.client_list ap_info.clients ap_info.clients.length]

/-- Line 109, `time.sleep(3)`: the fixed delay after every tick. -/
def background_update_delay : ℚ := 3

/-- One iteration of the `while True` loop: emit the tick's messages, then
    sleep for the fixed delay.  The loop body's handler (lines 106-107) only
    matters for effects outside this model — every sampler is total — so an
    iteration always reaches the sleep. -/
def background_update_step (env : TickEnv) : List PushMessage × ℚ :=
  (background_update_tick env, background_update_delay)

/-! ### The cached and uncached read interfaces (lines 2450, 2510, 3079-3115,
3156-3164, 3208-3215)

`/api/status` and `/api/stats` call the `@cached_function`-decorated probes;
`/api/get_current_wifi` and `/api/get_ap_info` call their probes directly,
with no decorator, so they read the live environment on every request and
never touch the cache dict. -/

/-- Cache key of the decorated `get_system_status` (line 48: the function
    name plus a hash of the empty argument tuple). -/
def statusCacheKey : String := "get_system_status_noargs"

/-- Cache key of the decorated `get_system_stats`. -/
def statsCacheKey : String := "get_system_stats_noargs"

/-- The decorated `get_system_status` as `/api/status` reaches it. -/
def get_system_status_cached (env : StatusEnv) (cd : CacheDict SystemStatus) (now : ℚ) :
    SystemStatus × CacheDict SystemStatus × Bool :=
  cachedCall cd statusCacheKey now (fun _ => get_system_status_uncached env)

/-- The decorated `get_system_stats` as `/api/stats` reaches it. -/
def get_system_stats_cached (env : StatsEnv) (cd : CacheDict SystemStats) (now : ℚ) :
    SystemStats × CacheDict SystemStats × Bool :=
  cachedCall cd statsCacheKey now (fun _ => get_system_stats env)

/-- Route `/api/get_current_wifi` (lines 3079-3115): no decorator — the probe runs
    against the live environment on every request, the cache is untouched. -/
def api_get_current_wifi_route (env : WifiEnv) (cd : CacheDict WifiApiResult) (_now : ℚ) :
    WifiApiResult × CacheDict WifiApiResult :=
  (api_get_current_wifi env, cd)

/-- Route `/api/get_ap_info` (lines 3208-3215): no decorator — `get_ap_info` runs
    against the live environment on every request, the cache is untouched. -/
def api_get_ap_info_route (env : ApEnv) (cd : CacheDict ApInfo) (_now : ℚ) :
    ApInfo × CacheDict ApInfo :=
  (get_ap_info env, cd)

/-! ## Theorems -/

/-- Claim C9: the shell-command wrapper `sh(cmd, timeout)` is total for every
    command behaviour and timeout: it never lets an exception reach its
    caller; a timeout or any other failure yields the empty string, and a
    completed command yields its stdout with surrounding whitespace
    stripped. -/
theorem sh_never_raises :
    ∀ (cmd : Cmd) (t : ℚ),
      (∀ e : PyExn, sh cmd t ≠ Except.error e) ∧
      (cmd.raises = true ∨ t < cmd.duration → sh cmd t = Except.ok "") ∧
      (cmd.raises = false → cmd.duration ≤ t → sh cmd t = Except.ok (pyStrip cmd.stdout)) := by
  intro cmd t
  rcases hr : cmd.raises with _ | _
  · rcases lt_or_ge t cmd.duration with hd | hd
    · refine ⟨?_, ?_, ?_⟩
      · intro e
        simp [sh, runCmd, hr, hd]
      · intro _
        simp [sh, runCmd, hr, hd]
      · intro _ h
        exact absurd hd (not_lt.mpr h)
    · have hnd := not_lt.mpr hd
      refine ⟨?_, ?_, ?_⟩
      · intro e
        simp [sh, runCmd, hr, hnd]
      · rintro (h | h)
        · simp at h
        · exact absurd h hnd
      · intro _ _
        simp [sh, runCmd, hr, hnd]
  · refine ⟨?_, ?_, ?_⟩
    · intro e
      simp [sh, runCmd, hr]
    · intro _
      simp [sh, runCmd, hr]
    · intro h
      simp at h

/-- Witness for C9: a completed `uptime -p` call comes back stripped. -/
theorem sh_never_raises_witness :
    sh ⟨1, false, 0, " up 3 days "⟩ 10 = Except.ok "up 3 days" := by
  have h := (sh_never_raises ⟨1, false, 0, " up 3 days "⟩ 10).2.2 rfl (by norm_num)
  rw [h]
  rfl

/-- Claim C6: in `get_current_wifi_data` the signal-strength read uses a
    strictly shorter timeout (3s) than the association check (5s), and when
    the association check has established the connection and the signal read
    then exceeds its timeout, the probe still returns `connected=true` with
    the fallback signal "0" instead of failing. -/
theorem wifi_signal_timeout_fallback :
    wifiSignalTimeout < wifiAssocTimeout ∧
    ∀ (env : WifiEnv) (r : RunResult) (name : String),
      runCmd wifiAssocTimeout env.conShowActive = Except.ok r →
      r.returncode = 0 →
      findWlan0Conn (splitLines r.stdout) = some name →
      env.wifiList.raises = false →
      wifiSignalTimeout < env.wifiList.duration →
      get_current_wifi_data env = ⟨true, some name, some "0", false⟩ := by
  constructor
  · norm_num [wifiSignalTimeout, wifiAssocTimeout]
  · intro env r name hrun hrc hfind hraises hdur
    unfold get_current_wifi_data
    rw [hrun]
    simp [runCmd, hrc, hfind, hraises, hdur]

/-- Witness for C6: a live association answer together with a stalling scan
    yields `connected` with the fallback signal. -/
theorem wifi_signal_timeout_fallback_witness :
    get_current_wifi_data ⟨⟨1, false, 0, "HomeA:wlan0:activated"⟩, ⟨4, false, 0, "HomeA:77"⟩⟩ =
      ⟨true, some "HomeA", some "0", false⟩ :=
  wifi_signal_timeout_fallback.2 ⟨⟨1, false, 0, "HomeA:wlan0:activated"⟩, ⟨4, false, 0, "HomeA:77"⟩⟩
    ⟨0, "HomeA:wlan0:activated"⟩ "HomeA" rfl rfl (by decide) rfl
    (by norm_num [wifiSignalTimeout])

/-- Claim C5: the very first counter sample is stored and a zero rate is
    displayed; a subsequent pair with `dt <= 1`, `dt >= 10` or a negative
    byte delta leaves the smoothing windows and both displays unchanged while
    the rejected sample still becomes the stored previous sample. -/
theorem updateSpeedData_first_and_rejected :
    ∀ (st : SpeedUIState) (wanRx apTx t : Int),
      (st.lastSpeedData = none →
        updateSpeedData st wanRx apTx t =
          { st with
            lastSpeedData := some ⟨wanRx, apTx, t⟩
            dispDownload := some 0
            dispUpload := some 0 }) ∧
      (∀ prev, st.lastSpeedData = some prev →
        (((t - prev.timestamp : Int) : ℚ) / 1000 ≤ 1 ∨
          10 ≤ ((t - prev.timestamp : Int) : ℚ) / 1000 ∨
          wanRx - prev.wan_rx < 0 ∨ apTx - prev.ap_tx < 0) →
        updateSpeedData st wanRx apTx t = { st with lastSpeedData := some ⟨wanRx, apTx, t⟩ }) := by
  intro st wanRx apTx t
  constructor
  · intro h
    unfold updateSpeedData
    rw [h]
  · intro prev h hrej
    simp only [updateSpeedData, h]
    rw [if_neg]
    push_neg
    intro h1 h2 h3
    rcases hrej with hr | hr | hr | hr
    · exact absurd h1 (not_lt.mpr hr)
    · exact absurd h2 (not_lt.mpr hr)
    · exact absurd h3 (not_le.mpr hr)
    · exact hr

/-- Witness for C5: a first sample displays zero; a pair only half a second
    apart is rejected yet still replaces the stored sample. -/
theorem updateSpeedData_first_and_rejected_witness :
    updateSpeedData initialSpeedUI 5 5 0 =
      { initialSpeedUI with
        lastSpeedData := some ⟨5, 5, 0⟩
        dispDownload := some 0
        dispUpload := some 0 } ∧
    updateSpeedData ⟨some ⟨0, 0, 0⟩, [2], [3], some 2, some 3⟩ 10 10 500 =
      ⟨some ⟨10, 10, 500⟩, [2], [3], some 2, some 3⟩ :=
  ⟨(updateSpeedData_first_and_rejected initialSpeedUI 5 5 0).1 rfl,
   (updateSpeedData_first_and_rejected ⟨some ⟨0, 0, 0⟩, [2], [3], some 2, some 3⟩ 10 10 500).2
     ⟨0, 0, 0⟩ rfl (Or.inl (by norm_num))⟩

/-- Claim C2, counterexample: at the spec's own example (prior sample
    rx=1000000, tx=500000 at t=0; new sample rx=1625000, tx=562500 at t=5s,
    empty window) the code displays download 1.0 but upload 0.0, not the
    claimed 0.1: the code divides by `dt * 1024 * 1024`, not by `dt * 1e6`,
    so the upload pair value 0.09537... falls under the 0.1 floor. -/
theorem speed_example_upload_flattened :
    (updateSpeedData ⟨some ⟨1000000, 500000, 0⟩, [], [], none, none⟩
        1625000 562500 5000).dispDownload = some 1 ∧
    (updateSpeedData ⟨some ⟨1000000, 500000, 0⟩, [], [], none, none⟩
        1625000 562500 5000).dispUpload = some 0 ∧
    pairMbpsSpec (562500 - 500000) 5 = 1 / 10 ∧
    pairMbps (562500 - 500000) 5 < 1 / 10 ∧
    (some (0 : ℚ) : Option ℚ) ≠ some (1 / 10) := by
  refine ⟨?_, ?_, ?_, ?_, ?_⟩
  · simp only [updateSpeedData]
    norm_num [HISTORY_SIZE, jsRound]
  · simp only [updateSpeedData]
    norm_num [HISTORY_SIZE, jsRound]
  · norm_num [pairMbpsSpec]
  · norm_num [pairMbps]
  · norm_num

/-- The push-and-shift of lines 1508-1515 equals the trailing window of the
    last `HISTORY_SIZE` values whenever the history is already bounded. -/
theorem pushShift_eq_trailingWindow (old : List ℚ) (v : ℚ) (h : old.length ≤ HISTORY_SIZE) :
    (if HISTORY_SIZE < (old ++ [v]).length then (old ++ [v]).tail else old ++ [v]) =
      trailingWindow old v := by
  unfold trailingWindow HISTORY_SIZE at *
  simp only [List.length_append, List.length_cons, List.length_nil]
  rcases Nat.lt_or_ge old.length 3 with h3 | h3
  · rw [if_neg (by omega)]
    have hz : old.length + 0 + 1 - 3 = 0 := by omega
    rw [hz]
    rfl
  · have he : old.length = 3 := by omega
    rw [if_pos (by omega)]
    have h1 : old.length + 0 + 1 - 3 = 1 := by omega
    rw [h1, List.drop_one]

/-- Claim C2, amended: for an accepted pair the displayed rates are the mean
    of the trailing window (size 3) of per-pair Mbit/s values, each per-pair
    value computed as `deltaBytes * 8 / (dt * 1024 * 1024)`, the mean rounded
    to one decimal and flattened to 0 when under 0.1; at the spec's example
    input this displays download 1.0 and upload 0.0. -/
theorem updateSpeedData_window_mean :
    ∀ (st : SpeedUIState) (prev : SpeedSample) (wanRx apTx t : Int),
      st.lastSpeedData = some prev →
      st.histDownload.length ≤ HISTORY_SIZE →
      st.histUpload.length = st.histDownload.length →
      1 < ((t - prev.timestamp : Int) : ℚ) / 1000 →
      ((t - prev.timestamp : Int) : ℚ) / 1000 < 10 →
      0 ≤ wanRx - prev.wan_rx →
      0 ≤ apTx - prev.ap_tx →
      (updateSpeedData st wanRx apTx t).dispDownload =
        some (displayOfWindow (trailingWindow st.histDownload
          (pairMbps (wanRx - prev.wan_rx) (((t - prev.timestamp : Int) : ℚ) / 1000)))) ∧
      (updateSpeedData st wanRx apTx t).dispUpload =
        some (displayOfWindow (trailingWindow st.histUpload
          (pairMbps (apTx - prev.ap_tx) (((t - prev.timestamp : Int) : ℚ) / 1000)))) := by
  intro st prev wanRx apTx t hlast hlen hequal h1 h2 hw ha
  obtain ⟨last, hD, hU, dD, dU⟩ := st
  simp only at hlast hlen hequal
  subst hlast
  have hUlen : hU.length ≤ HISTORY_SIZE := by rw [hequal]; exact hlen
  simp only [updateSpeedData]
  rw [if_pos ⟨h1, h2, hw, ha⟩]
  rw [← pushShift_eq_trailingWindow hD _ hlen, ← pushShift_eq_trailingWindow hU _ hUlen]
  simp only [pairMbps, displayOfWindow, List.length_append, List.length_cons,
    List.length_nil, hequal]
  exact ⟨trivial, trivial⟩

/-- Witness for the amended C2: with one value already in the window, an
    accepted pair two seconds apart displays the rounded two-element means. -/
theorem updateSpeedData_window_mean_witness :
    (updateSpeedData ⟨some ⟨0, 0, 0⟩, [1 / 2], [1 / 2], some (1 / 2), some (1 / 2)⟩
        1310720 655360 2000).dispDownload = some (14 / 5) ∧
    (updateSpeedData ⟨some ⟨0, 0, 0⟩, [1 / 2], [1 / 2], some (1 / 2), some (1 / 2)⟩
        1310720 655360 2000).dispUpload = some (3 / 2) := by
  have h := updateSpeedData_window_mean
    ⟨some ⟨0, 0, 0⟩, [1 / 2], [1 / 2], some (1 / 2), some (1 / 2)⟩ ⟨0, 0, 0⟩
    1310720 655360 2000 rfl (by simp [HISTORY_SIZE]) rfl (by norm_num) (by norm_num)
    (by norm_num) (by norm_num)
  refine ⟨h.1.trans ?_, h.2.trans ?_⟩
  · norm_num [displayOfWindow, trailingWindow, pairMbps, jsRound, HISTORY_SIZE]
  · norm_num [displayOfWindow, trailingWindow, pairMbps, jsRound, HISTORY_SIZE]

/-- Claim C1, counterexample: two concurrent callers that both pass the
    freshness check on an absent entry before either stores a result execute
    the wrapped function twice — the unsynchronized wrapper provides no
    single-flight guarantee, so "exactly one execution" fails. -/
theorem cached_function_race_two_computes :
    (sfRun 7 ⟨none, 0, [CallerPhase.start, CallerPhase.start]⟩
        [(0, 0), (1, 0), (0, 0), (1, 0)]).computeCount = 2 ∧
    (sfRun 7 ⟨none, 0, [CallerPhase.start, CallerPhase.start]⟩
        [(0, 0), (1, 0), (0, 0), (1, 0)]).callers =
      [CallerPhase.finished 7, CallerPhase.finished 7] ∧
    (2 : Nat) ≠ 1 := by
  refine ⟨?_, ?_, by norm_num⟩ <;>
    simp [sfRun, sfStep, sfFresh, sfEntryVal]

/-- Replacing an element by one that counts the same leaves `countP`
    unchanged. -/
theorem countP_set_eq_of_same {α : Type} (p : α → Bool) (x y : α) (hxy : p x = p y) :
    ∀ (l : List α) (i : Nat), l.get? i = some y → (l.set i x).countP p = l.countP p := by
  intro l
  induction l with
  | nil => intro i h; cases h
  | cons a t ih =>
    intro i h
    cases i with
    | zero =>
      have ha : a = y := by simpa using h
      subst ha
      simp [List.countP_cons, hxy]
    | succ j =>
      have h2 : t.get? j = some y := by simpa using h
      simp [List.countP_cons, ih j h2]

/-- Replacing a counted element by an uncounted one decrements `countP` by
    exactly one. -/
theorem countP_set_dec {α : Type} (p : α → Bool) (x y : α) (hx : p x = false)
    (hy : p y = true) :
    ∀ (l : List α) (i : Nat), l.get? i = some y → (l.set i x).countP p + 1 = l.countP p := by
  intro l
  induction l with
  | nil => intro i h; cases h
  | cons a t ih =>
    intro i h
    cases i with
    | zero =>
      have ha : a = y := by simpa using h
      subst ha
      simp [List.countP_cons, hx, hy]
    | succ j =>
      have h2 : t.get? j = some y := by simpa using h
      simp only [List.set_cons_succ, List.countP_cons]
      have := ih j h2
      omega

/-- One interleaving step never increases `computeCount + sfPending`: an
    execution of the wrapped function consumes one pending caller. -/
theorem sfStep_measure (c : Nat) (st : SFState) (i : Nat) (now : ℚ) :
    (sfStep c st i now).computeCount + sfPending (sfStep c st i now) ≤
      st.computeCount + sfPending st := by
  unfold sfStep
  cases hg : st.callers.get? i with
  | none => exact le_refl _
  | some ph =>
    cases ph with
    | start =>
      cases hf : sfFresh st.entry now with
      | false =>
        simp only [hf, Bool.false_eq_true, if_false, sfPending]
        rw [countP_set_eq_of_same sfPendingPhase CallerPhase.willCompute CallerPhase.start
          rfl st.callers i hg]
      | true =>
        simp only [hf, if_true, sfPending]
        have := countP_set_dec sfPendingPhase (CallerPhase.finished (sfEntryVal st.entry))
          CallerPhase.start rfl rfl st.callers i hg
        omega
    | willCompute =>
      simp only [sfPending]
      have := countP_set_dec sfPendingPhase (CallerPhase.finished c)
        CallerPhase.willCompute rfl rfl st.callers i hg
      omega
    | finished v => exact le_refl _

/-- Along any schedule, the number of executions of the wrapped function
    grows by at most the number of unfinished callers. -/
theorem sfRun_computeCount_le (c : Nat) :
    ∀ (sched : List (Nat × ℚ)) (st : SFState),
      (sfRun c st sched).computeCount ≤ st.computeCount + sfPending st := by
  intro sched
  induction sched with
  | nil => intro st; simp [sfRun]
  | cons step rest ih =>
    intro st
    obtain ⟨i, now⟩ := step
    calc (sfRun c (sfStep c st i now) rest).computeCount
        ≤ (sfStep c st i now).computeCount + sfPending (sfStep c st i now) := ih _
      _ ≤ st.computeCount + sfPending st := sfStep_measure c st i now

/-- Claim C1, amended: the wrapper memoizes per call but provides no
    single-flight coalescing.  A caller running alone returns a fresh entry
    without recomputation, and triggers exactly one new execution on an
    absent-or-expired entry; under concurrent interleavings every caller that
    observed a missing or expired entry executes the wrapped function itself,
    so N concurrent callers trigger at most N — and possibly more than one —
    executions. -/
theorem cached_function_per_caller_memoization :
    (∀ (c v : Nat) (ts now : ℚ) (n0 : Nat),
      ¬(now - ts < cache_timeout) →
      sfRun c ⟨some (v, ts), n0, [CallerPhase.start]⟩ [(0, now), (0, now)] =
        ⟨some (c, now), n0 + 1, [CallerPhase.finished c]⟩) ∧
    (∀ (c v : Nat) (ts now : ℚ) (n0 : Nat),
      now - ts < cache_timeout →
      sfRun c ⟨some (v, ts), n0, [CallerPhase.start]⟩ [(0, now)] =
        ⟨some (v, ts), n0, [CallerPhase.finished v]⟩) ∧
    (∀ (c : Nat) (st : SFState) (sched : List (Nat × ℚ)),
      (sfRun c st sched).computeCount ≤ st.computeCount + sfPending st) := by
  refine ⟨?_, ?_, fun c st sched => sfRun_computeCount_le c sched st⟩
  · intro c v ts now n0 hstale
    have hb : decide (now - ts < cache_timeout) = false := decide_eq_false hstale
    simp [sfRun, sfStep, sfFresh, hb]
  · intro c v ts now n0 hfresh
    have hb : decide (now - ts < cache_timeout) = true := decide_eq_true hfresh
    simp [sfRun, sfStep, sfFresh, sfEntryVal, hb]

/-- Witness for the amended C1: a lone caller hitting a 6-second-old entry
    recomputes exactly once and overwrites the entry. -/
theorem cached_function_per_caller_memoization_witness :
    sfRun 9 ⟨some (4, 0), 0, [CallerPhase.start]⟩ [(0, 6), (0, 6)] =
      ⟨some (9, 6), 0 + 1, [CallerPhase.finished 9]⟩ :=
  cached_function_per_caller_memoization.1 9 4 0 6 0 (by norm_num [cache_timeout])

/-- Claim C3, counterexample: the current-WiFi interface is not cached at
    all.  A second request one second after the first — well inside the
    claimed 5-second ttl — re-probes the live environment and returns the new
    association (`HomeB`) instead of the memoized first result (`HomeA`), and
    the cache dict is never written. -/
theorem wifi_route_not_cached :
    (api_get_current_wifi_route ⟨⟨1, false, 0, "HomeA:wlan0:activated"⟩, ⟨1, false, 0, "HomeA:77"⟩⟩
        (emptyCache WifiApiResult) 0).2 = emptyCache WifiApiResult ∧
    (api_get_current_wifi_route ⟨⟨1, false, 0, "HomeA:wlan0:activated"⟩, ⟨1, false, 0, "HomeA:77"⟩⟩
        (emptyCache WifiApiResult) 0).1.ssid = some "HomeA" ∧
    (api_get_current_wifi_route ⟨⟨1, false, 0, "HomeB:wlan0:activated"⟩, ⟨1, false, 0, "HomeB:63"⟩⟩
        ((api_get_current_wifi_route
            ⟨⟨1, false, 0, "HomeA:wlan0:activated"⟩, ⟨1, false, 0, "HomeA:77"⟩⟩
            (emptyCache WifiApiResult) 0).2) 1).1.ssid = some "HomeB" ∧
    (some "HomeB" : Option String) ≠ some "HomeA" :=
  ⟨rfl, by decide, by decide, by decide⟩

/-- Claim C3, amended: only the status and stats interfaces are cached with
    ttl = 5: an entry younger than 5 seconds is returned without running the
    probe, and an entry 5 or more seconds old is never returned — the probe
    re-runs and the entry is overwritten.  The current-WiFi and client-list
    interfaces are uncached: every request runs the probe against the live
    environment and leaves the cache dict untouched. -/
theorem cache_ttl_and_uncached_routes :
    (∀ (env : StatusEnv) (cd : CacheDict SystemStatus) (now : ℚ) (v : SystemStatus) (ts : ℚ),
      cd statusCacheKey = some (v, ts) → now - ts < cache_timeout →
      get_system_status_cached env cd now = (v, cd, false)) ∧
    (∀ (env : StatusEnv) (cd : CacheDict SystemStatus) (now : ℚ) (v : SystemStatus) (ts : ℚ),
      cd statusCacheKey = some (v, ts) → ¬(now - ts < cache_timeout) →
      get_system_status_cached env cd now =
        (get_system_status_uncached env,
          cacheSet cd statusCacheKey (get_system_status_uncached env, now), true)) ∧
    (∀ (env : StatsEnv) (cd : CacheDict SystemStats) (now : ℚ) (v : SystemStats) (ts : ℚ),
      cd statsCacheKey = some (v, ts) → now - ts < cache_timeout →
      get_system_stats_cached env cd now = (v, cd, false)) ∧
    (∀ (env : StatsEnv) (cd : CacheDict SystemStats) (now : ℚ) (v : SystemStats) (ts : ℚ),
      cd statsCacheKey = some (v, ts) → ¬(now - ts < cache_timeout) →
      get_system_stats_cached env cd now =
        (get_system_stats env, cacheSet cd statsCacheKey (get_system_stats env, now), true)) ∧
    (∀ (env : WifiEnv) (cd : CacheDict WifiApiResult) (now : ℚ),
      api_get_current_wifi_route env cd now = (api_get_current_wifi env, cd)) ∧
    (∀ (env : ApEnv) (cd : CacheDict ApInfo) (now : ℚ),
      api_get_ap_info_route env cd now = (get_ap_info env, cd)) := by
  refine ⟨?_, ?_, ?_, ?_, fun _ _ _ => rfl, fun _ _ _ => rfl⟩
  · intro env cd now v ts h hfresh
    simp [get_system_status_cached, cachedCall, h, hfresh]
  · intro env cd now v ts h hstale
    simp [get_system_status_cached, cachedCall, h, hstale]
  · intro env cd now v ts h hfresh
    simp [get_system_stats_cached, cachedCall, h, hfresh]
  · intro env cd now v ts h hstale
    simp [get_system_stats_cached, cachedCall, h, hstale]

/-- An external command that completes immediately with empty output. -/
def quietCmd : Cmd := ⟨1, false, 0, ""⟩

/-- A status environment for witnesses. -/
def statusEnvW : StatusEnv := ⟨quietCmd, quietCmd, quietCmd, quietCmd, quietCmd, quietCmd⟩

/-- A cached status value for witnesses. -/
def statusValW : SystemStatus := ⟨true, true, true, true, "up 3 days"⟩

/-- Witness for the amended C3: a one-second-old status entry is served from
    the cache without running the probe. -/
theorem cache_ttl_and_uncached_routes_witness :
    get_system_status_cached statusEnvW
        (cacheSet (emptyCache SystemStatus) statusCacheKey (statusValW, 0)) 1 =
      (statusValW, cacheSet (emptyCache SystemStatus) statusCacheKey (statusValW, 0), false) :=
  cache_ttl_and_uncached_routes.1 statusEnvW
    (cacheSet (emptyCache SystemStatus) statusCacheKey (statusValW, 0)) 1 statusValW 0
    (by simp [cacheSet]) (by norm_num [cache_timeout])

/-- Claim C4: a tick in which the WiFi probe's association check raises still
    emits all five messages of that tick — in particular `system_status`,
    `system_stats` and `client_list` carry the data sampled in this tick, the
    WiFi message degrades to the probe's failure dict — and the loop then
    waits the fixed 3-second delay. -/
theorem tick_broadcast_isolation :
    ∀ env : TickEnv,
      env.wifi.conShowActive.raises = true →
      (background_update_step env).1 =
        [PushMessage.system_status (get_system_status_uncached env.status),
         PushMessage.system_stats (get_system_stats env.stats),
         PushMessage.wifi_status (get_current_wifi_data env.wifi),
         PushMessage.speed_data (get_internet_speed_data env.netDev env.nowMs),
         PushMessage.client_list (get_ap_info env.ap).clients (get_ap_info env.ap).clients.length] ∧
      get_current_wifi_data env.wifi = ⟨false, none, none, true⟩ ∧
      (background_update_step env).2 = 3 := by
  intro env hfail
  refine ⟨rfl, ?_, rfl⟩
  simp [get_current_wifi_data, runCmd, hfail]

/-- A tick environment whose WiFi association check raises. -/
def tickEnvW : TickEnv :=
  ⟨statusEnvW,
   ⟨Except.ok 10, Except.ok 40, quietCmd, Except.ok (0, 0, 0), quietCmd, PiholeDb.missing⟩,
   ⟨⟨1, true, 0, ""⟩, quietCmd⟩, quietCmd, 0,
   ⟨FileOutcome.missing, FileOutcome.missing, quietCmd⟩⟩

/-- Witness for C4: with the WiFi probe raising, the tick still reaches all
    emits and the fixed delay. -/
theorem tick_broadcast_isolation_witness :
    get_current_wifi_data tickEnvW.wifi = ⟨false, none, none, true⟩ ∧
    (background_update_step tickEnvW).2 = 3 :=
  ⟨(tick_broadcast_isolation tickEnvW rfl).2.1, (tick_broadcast_isolation tickEnvW rfl).2.2⟩

/-- Claim C7: the system-stats probe is a total function of its environment —
    no failure of an external call raises to its caller — and the fields
    owned by a failed call hold their documented defaults: temperature 0 when
    the `vcgencmd` read yields nothing parseable, and the zero
    queries/blocked/percent triple when the Pi-hole database is missing or
    unreadable. -/
theorem stats_probe_defaults :
    ∀ env : StatsEnv,
      (parseTemp (shFun env.vcgencmd) = none → (get_system_stats env).temperature = 0) ∧
      (env.pihole = PiholeDb.missing ∨ env.pihole = PiholeDb.raises →
        (get_system_stats env).pihole_queries = 0 ∧
        (get_system_stats env).pihole_blocked = 0 ∧
        (get_system_stats env).pihole_blocked_percent = 0) := by
  intro env
  rcases hc : env.cpu with e | c
  · constructor
    · intro _
      simp [get_system_stats, hc, statsDefaults]
    · intro _
      simp [get_system_stats, hc, statsDefaults]
  · rcases hm : env.memPercent with e2 | m
    · constructor
      · intro _
        simp [get_system_stats, hc, hm, statsDefaults]
      · intro _
        simp [get_system_stats, hc, hm, statsDefaults]
    · constructor
      · intro htemp
        rcases hd : env.disk with e3 | ⟨dt, du, df⟩ <;>
          rcases hp : env.pihole with _ | _ | rows <;>
            simp [get_system_stats, hc, hm, hd, hp, htemp, statsDefaults]
      · rintro (hp | hp) <;>
          rcases hd : env.disk with e3 | ⟨dt, du, df⟩ <;>
            simp [get_system_stats, hc, hm, hd, hp, statsDefaults]

/-- A stats environment whose temperature read times out and whose Pi-hole
    database is missing. -/
def statsEnvW : StatsEnv :=
  ⟨Except.ok 12, Except.ok 34, ⟨20, false, 0, "temp=51.5'C"⟩, Except.ok (0, 0, 0),
   quietCmd, PiholeDb.missing⟩

/-- Witness for C7: the degraded fields hold their defaults. -/
theorem stats_probe_defaults_witness :
    (get_system_stats statsEnvW).temperature = 0 ∧
    (get_system_stats statsEnvW).pihole_queries = 0 ∧
    (get_system_stats statsEnvW).pihole_blocked = 0 ∧
    (get_system_stats statsEnvW).pihole_blocked_percent = 0 :=
  ⟨(stats_probe_defaults statsEnvW).1 rfl, (stats_probe_defaults statsEnvW).2 (Or.inl rfl)⟩

/-- Claim C8, counterexample: a lease line whose first field is not an
    integer makes the cleanup request fail (`success: False`) instead of
    returning success with a removed count — the claim does not hold for
    every lease file content. -/
theorem cleanup_malformed_expiry_fails :
    api_cleanup_clients (FileOutcome.content ["x aa:bb 10.0.0.2 host1"]) 100 =
      CleanupResult.failure ∧
    ¬∃ (removed : Nat) (rewritten : Option (List String)),
      api_cleanup_clients (FileOutcome.content ["x aa:bb 10.0.0.2 host1"]) 100 =
        CleanupResult.success removed rewritten := by
  have hfail : api_cleanup_clients (FileOutcome.content ["x aa:bb 10.0.0.2 host1"]) 100 =
      CleanupResult.failure := by decide
  refine ⟨hfail, ?_⟩
  rintro ⟨r, w, h⟩
  rw [hfail] at h
  cases h

/-- Does the cleanup keep this line: at least four fields with a
    strictly-future integer expiry. -/
def leaseKept (now : Int) (line : String) : Bool :=
  decide (4 ≤ (leaseFields line).length) &&
    decide (now < (pyInt ((leaseFields line).getD 0 "")).getD 0)

/-- Does the cleanup count this line as removed: at least four fields with a
    non-future expiry. -/
def leaseDropped (now : Int) (line : String) : Bool :=
  decide (4 ≤ (leaseFields line).length) &&
    !decide (now < (pyInt ((leaseFields line).getD 0 "")).getD 0)

/-- On a lease file whose well-fielded lines all carry integer expiries, the
    read loop keeps exactly the future entries and counts exactly the
    non-future entries. -/
theorem processLeases_wellformed (now : Int) :
    ∀ lines : List String,
      (∀ line ∈ lines, 4 ≤ (leaseFields line).length →
        (pyInt ((leaseFields line).getD 0 "")).isSome) →
      processLeases now lines =
        some (lines.filter (leaseKept now), lines.countP (leaseDropped now)) := by
  intro lines
  induction lines with
  | nil =>
    intro _
    simp [processLeases]
  | cons l rest ih =>
    intro hwf
    have ihr := ih (fun line hm => hwf line (List.mem_cons_of_mem _ hm))
    unfold processLeases
    by_cases h4 : 4 ≤ (leaseFields l).length
    · obtain ⟨lt, hlt⟩ := Option.isSome_iff_exists.mp (hwf l (List.mem_cons_self _ _) h4)
      have hlt2 : pyInt ((leaseFields l)[0]?.getD "") = some lt := by
        simpa using hlt
      rw [if_pos h4, hlt, ihr]
      by_cases hfut : now < lt
      · simp [List.filter_cons, List.countP_cons, leaseKept, leaseDropped, h4, hlt2, hfut]
      · simp [List.filter_cons, List.countP_cons, leaseKept, leaseDropped, h4, hlt2, hfut,
          not_lt.mp hfut]
    · rw [if_neg h4, ihr]
      simp [List.filter_cons, List.countP_cons, leaseKept, leaseDropped, h4]

/-- Claim C8, amended: for every lease file in which each line with at least
    four whitespace fields has an integer first field, the cleanup rewrites
    the file keeping exactly the entries whose expiry is strictly in the
    future, and returns success with a removed count equal to the number of
    well-fielded entries removed; lines with fewer than four fields are
    dropped from the file without being counted, and a non-integer expiry
    field fails the whole request instead. -/
theorem cleanup_wellformed_leases :
    ∀ (now : Int) (lines : List String),
      (∀ line ∈ lines, 4 ≤ (leaseFields line).length →
        (pyInt ((leaseFields line).getD 0 "")).isSome) →
      api_cleanup_clients (FileOutcome.content lines) now =
        CleanupResult.success (lines.countP (leaseDropped now))
          (some (lines.filter (leaseKept now))) := by
  intro now lines hwf
  simp [api_cleanup_clients, processLeases_wellformed now lines hwf]

/-- Witness for the amended C8: one future lease is kept, one expired lease
    is removed and counted, and a short line is dropped without counting. -/
theorem cleanup_wellformed_leases_witness :
    api_cleanup_clients (FileOutcome.content
        ["200 aa:bb 10.0.0.2 host1 *", "50 cc:dd 10.0.0.3 host2 *", "short line"]) 100 =
      CleanupResult.success 1 (some ["200 aa:bb 10.0.0.2 host1 *"]) := by
  have h := cleanup_wellformed_leases 100
    ["200 aa:bb 10.0.0.2 host1 *", "50 cc:dd 10.0.0.3 host2 *", "short line"] (by decide)
  rw [h]
  rfl

/-- The mask written by `get_ap_info` depends on the hostapd file only
    through the stripped passphrase length. -/
def passphraseLen : FileOutcome → Option Nat
  | FileOutcome.content lines => (findPassphraseValue lines).map String.length
  | _ => none

/-- The password field of the AP info is exactly the mask of the hostapd
    outcome. -/
theorem get_ap_info_password_eq (env : ApEnv) :
    (get_ap_info env).password = apPassword env.hostapd := by
  cases h : env.hostapd <;> simp [get_ap_info, h, apInfoDefaults]

/-- The mask is a function of the stripped passphrase length alone. -/
theorem apPassword_eq_maskOfLen (f : FileOutcome) :
    apPassword f =
      match passphraseLen f with
      | some n => stars n
      | none => "******" := by
  cases f with
  | missing => rfl
  | raises => rfl
  | content lines =>
    cases hf : findPassphraseValue lines <;> simp [apPassword, passphraseLen, hf]

/-- Claim C10, counterexample: `strip('"')` removes quote characters before
    the length is taken, so two configurations whose raw `wpa_passphrase`
    values both have length 4 can produce different masks — the output does
    not depend on the passphrase only through its length. -/
theorem ap_password_quote_strip_leak :
    (get_ap_info ⟨FileOutcome.content ["wpa_passphrase=\"abc"], FileOutcome.missing,
        quietCmd⟩).password = "***" ∧
    (get_ap_info ⟨FileOutcome.content ["wpa_passphrase=zabc"], FileOutcome.missing,
        quietCmd⟩).password = "****" ∧
    ("\"abc" : String).length = ("zabc" : String).length ∧
    ("***" : String) ≠ "****" := by
  refine ⟨by decide, by decide, by decide, by decide⟩

/-- Claim C10, amended: the AP-info view never exposes the passphrase — the
    password field always consists solely of `'*'` characters — and it
    depends on the configuration only through the length of the first
    `wpa_passphrase` value after stripping leading and trailing double
    quotes: two configurations agreeing on that stripped length (or both
    lacking a passphrase line) produce identical password fields. -/
theorem ap_password_mask_length_only :
    (∀ env : ApEnv, ∀ ch ∈ (get_ap_info env).password.toList, ch = '*') ∧
    (∀ env1 env2 : ApEnv,
      passphraseLen env1.hostapd = passphraseLen env2.hostapd →
      (get_ap_info env1).password = (get_ap_info env2).password) := by
  constructor
  · intro env ch hch
    rw [get_ap_info_password_eq, apPassword_eq_maskOfLen] at hch
    cases hp : passphraseLen env.hostapd with
    | none =>
      rw [hp] at hch
      have h6 : ("******" : String).toList = List.replicate 6 '*' := rfl
      rw [h6] at hch
      exact List.eq_of_mem_replicate hch
    | some n =>
      rw [hp] at hch
      exact List.eq_of_mem_replicate (by simpa [stars] using hch)
  · intro env1 env2 h
    rw [get_ap_info_password_eq, get_ap_info_password_eq, apPassword_eq_maskOfLen,
      apPassword_eq_maskOfLen, h]

/-- Witness for the amended C10: two different 8-character passphrases give
    the same 8-star mask. -/
theorem ap_password_mask_length_only_witness :
    (get_ap_info ⟨FileOutcome.content ["wpa_passphrase=abcd1234"], FileOutcome.missing,
        quietCmd⟩).password =
      (get_ap_info ⟨FileOutcome.content ["wpa_passphrase=router99"], FileOutcome.missing,
        quietCmd⟩).password :=
  ap_password_mask_length_only.2
    ⟨FileOutcome.content ["wpa_passphrase=abcd1234"], FileOutcome.missing, quietCmd⟩
    ⟨FileOutcome.content ["wpa_passphrase=router99"], FileOutcome.missing, quietCmd⟩
    (by decide)

end OpenPiRouter
